import Mathlib

/-!
Verification development for the Flowise document-store refresher
(`flowise_document_refresher.py`, `flowise_utils.py`).

The relevant operations are embedded shallowly:
* status sets and classification (`flowise_utils.py` lines 9-20, used at
  `flowise_document_refresher.py` lines 369-404),
* `trigger_refresh` with its five request variants, modelled over an
  abstract remote (`Method → Option Payload → TryResult`),
* `filter_refreshable_stores`,
* the polling loop `monitor_refresh_progress`, modelled as a step
  function per poll cycle plus a fuelled driver; the environment supplies
  per cycle the elapsed time reading and the fetch result,
* `refresh_and_monitor` and the success/failure counting of
  `display_summary`.
-/

namespace Flowise

/-- `REFRESHABLE_STATUSES` from `flowise_utils.py`. -/
def REFRESHABLE_STATUSES : List String := ["UPSERTED"]

/-- `BUSY_STATUSES` from `flowise_utils.py`. -/
def BUSY_STATUSES : List String := ["SYNCING", "UPSERTING"]

/-- `WAITING_STATUSES` from `flowise_utils.py`. -/
def WAITING_STATUSES : List String := ["STALE"]

/-- Python's `str.upper()` as used on status strings, modelled
per character over the string's character list. -/
def pyUpper (s : String) : String := String.mk (s.data.map Char.toUpper)

/-- The semantic buckets a status string classifies into. -/
inductive StatusBucket where
  | Refreshable
  | Busy
  | Waiting
  | Unknown
deriving DecidableEq, Repr

/-- The status classification performed (identically) by
`filter_refreshable_stores` and the polling loop: the uppercased status is
tested against the three fixed sets. -/
def classify (s : String) : StatusBucket :=
  let u := pyUpper s
  if u ∈ REFRESHABLE_STATUSES then .Refreshable
  else if u ∈ BUSY_STATUSES then .Busy
  else if u ∈ WAITING_STATUSES then .Waiting
  else .Unknown

/-- A document store snapshot as read from the API; fields the code reads
with `.get(key, default)` are optional here. -/
structure DocumentStore where
  id : Option String := none
  name : Option String := none
  status : Option String := none
  totalChunks : Option Int := none
deriving DecidableEq, Repr

/-- `filter_refreshable_stores` (`flowise_document_refresher.py` 147-162). -/
def filter_refreshable_stores : List DocumentStore → List DocumentStore
  | [] => []
  | store :: rest =>
    let status := pyUpper (store.status.getD "UNKNOWN")
    if status ∈ WAITING_STATUSES then filter_refreshable_stores rest
    else if status ∈ BUSY_STATUSES then filter_refreshable_stores rest
    else if status ∈ REFRESHABLE_STATUSES then
      store :: filter_refreshable_stores rest
    else filter_refreshable_stores rest

/-- HTTP method of a trigger attempt. -/
inductive Method where
  | POST
  | PUT
deriving DecidableEq, Repr

/-- The two non-empty request bodies used by `trigger_refresh`;
`none` at the use sites stands for "no body". -/
inductive Payload where
  | emptyObj
  | itemsEmpty
deriving DecidableEq, Repr

/-- Result of one `_try_refresh_request` call: success flag, status
code and response body text. -/
structure TryResult where
  success : Bool
  status : Nat
  text : String
deriving DecidableEq, Repr

/-- The abstract remote: what `_try_refresh_request` returns for each
method/payload variant. -/
def Remote := Method → Option Payload → TryResult

/-- The fixed attempt list of `trigger_refresh`
(`flowise_document_refresher.py` 90-96). -/
def attemptsList : List (Method × Option Payload) :=
  [ (.POST, none),
    (.POST, some .emptyObj),
    (.POST, some .itemsEmpty),
    (.PUT, none),
    (.PUT, some .emptyObj) ]

/-- Everything observable about one `trigger_refresh` run: the returned
boolean, the final `last_error_status` / `last_error_message` variables,
the variants actually issued (in order), and whether the HTTP-500 hint
block was printed. -/
structure TriggerOutcome where
  success : Bool
  last_error_status : Nat
  last_error_message : String
  attempts_made : List (Method × Option Payload)
  hints_emitted : Bool
deriving DecidableEq, Repr

/-- The attempt loop of `trigger_refresh` (lines 102-145): issue each
variant in order, return success at the first non-error response,
otherwise record the error and go on; on exhaustion report the last
recorded error, with the hint block exactly when that status is 500. -/
def triggerGo (remote : Remote) :
    List (Method × Option Payload) → Nat → String →
    List (Method × Option Payload) → TriggerOutcome
  | [], st, msg, trace =>
    { success := false
      last_error_status := st
      last_error_message := msg
      attempts_made := trace.reverse
      hints_emitted := st = 500 }
  | (m, p) :: rest, st, msg, trace =>
    let r := remote m p
    if r.success then
      { success := true
        last_error_status := st
        last_error_message := msg
        attempts_made := ((m, p) :: trace).reverse
        hints_emitted := false }
    else
      triggerGo remote rest r.status r.text ((m, p) :: trace)

/-- `trigger_refresh` (`flowise_document_refresher.py` 74-145) over an
abstract remote. -/
def trigger_refresh (remote : Remote) : TriggerOutcome :=
  triggerGo remote attemptsList 0 "" []

/-- `format_elapsed_time` (`flowise_document_refresher.py` 313-323),
on whole seconds. -/
def format_elapsed_time (seconds : Nat) : String :=
  if seconds < 60 then toString seconds ++ "s"
  else if seconds < 3600 then
    toString (seconds / 60) ++ "m " ++ toString (seconds % 60) ++ "s"
  else
    toString (seconds / 3600) ++ "h " ++ toString ((seconds % 3600) / 60) ++ "m"

/-- The mutable state of the `RefreshMonitor` class
(`flowise_document_refresher.py` 298-310); the wall-clock start time is
abstracted away (elapsed time is supplied by the environment). -/
structure RefreshMonitor where
  store_id : Option String
  store_name : String
  status : String
  completed : Bool
  error : Option String
  final_status : Option String
  iteration_count : Nat
  last_chunks : Int
  initial_chunks : Int
deriving DecidableEq, Repr

/-- `RefreshMonitor.__init__`. -/
def mkMonitor (store : DocumentStore) : RefreshMonitor :=
  { store_id := store.id
    store_name := store.name.getD "Unnamed Store"
    status := "STARTING"
    completed := false
    error := none
    final_status := none
    iteration_count := 0
    last_chunks := 0
    initial_chunks := store.totalChunks.getD 0 }

/-- Whether a poll cycle left the loop (`break`) or went around again
(`continue` / fall-through to the next iteration). -/
inductive StepResult where
  | terminated (m : RefreshMonitor)
  | continued (m : RefreshMonitor)
deriving DecidableEq, Repr

/-- What one poll cycle reports: a timeout exit, a failed status fetch,
or a successful poll with its iteration number, uppercased status, chunk
count and the computed `chunks_delta`. -/
inductive Observation where
  | timedOut (elapsed : Nat)
  | fetchFailed
  | polled (iteration : Nat) (status : String) (chunks : Int) (delta : Int)
deriving DecidableEq, Repr

/-- The successful-fetch part of a poll cycle
(`flowise_document_refresher.py` 357-405): increment the iteration count,
record the uppercased status and the chunk count, compute `chunks_delta`
against `last_chunks` (zero on the very first successful poll), and
terminate exactly on a refreshable status. -/
def pollSuccess (store_data : DocumentStore) (m : RefreshMonitor) :
    StepResult × Observation :=
  let iter := m.iteration_count + 1
  let current_status := pyUpper (store_data.status.getD "UNKNOWN")
  let current_chunks : Int := store_data.totalChunks.getD 0
  let chunks_delta : Int :=
    if iter > 1 then current_chunks - m.last_chunks else 0
  let m' := { m with
    iteration_count := iter
    status := current_status
    last_chunks := current_chunks }
  if current_status ∈ REFRESHABLE_STATUSES then
    (.terminated { m' with completed := true, final_status := some current_status },
     .polled iter current_status current_chunks chunks_delta)
  else
    (.continued m', .polled iter current_status current_chunks chunks_delta)

/-- One iteration of the `while True` loop of `monitor_refresh_progress`
(`flowise_document_refresher.py` 337-406): check the timeout first
(terminating with the timeout error while touching nothing else), then the
fetch result — a failed fetch changes nothing and goes around again, a
successful fetch is handled by `pollSuccess`.  `elapsed` is this cycle's
reading of `time.time() - start_time`, `fetched` the result of
`fetch_document_store_status`. -/
def monitorStep (maxTimeout : Nat) (elapsed : Nat)
    (fetched : Option DocumentStore) (m : RefreshMonitor) :
    StepResult × Observation :=
  if elapsed > maxTimeout then
    (.terminated { m with
        error := some ("Timeout after " ++ format_elapsed_time elapsed)
        completed := true },
     .timedOut elapsed)
  else
    match fetched with
    | none => (.continued m, .fetchFailed)
    | some store_data => pollSuccess store_data m

/-- The environment of one monitor run: for each poll cycle `k`, the
elapsed-time reading at the top of the cycle and the fetch result. -/
def MonitorEnv := Nat → Nat × Option DocumentStore

/-- Fuelled driver for the polling loop: run up to `fuel` cycles starting
at cycle index `k`; returns the final monitor, whether the loop exited
(`true` = a `break` was reached), and the per-cycle observations. -/
def monitorRun (maxTimeout : Nat) (env : MonitorEnv) :
    Nat → Nat → RefreshMonitor → RefreshMonitor × Bool × List Observation
  | 0, _, m => (m, false, [])
  | fuel + 1, k, m =>
    match monitorStep maxTimeout (env k).1 (env k).2 m with
    | (.terminated m', obs) => (m', true, [obs])
    | (.continued m', obs) =>
      let r := monitorRun maxTimeout env fuel (k + 1) m'
      (r.1, r.2.1, obs :: r.2.2)

/-- `refresh_and_monitor` (`flowise_document_refresher.py` 409-424):
build the monitor, call the trigger; on trigger failure short-circuit to a
failed, completed monitor without entering the polling loop (empty
observation list); otherwise return the monitor loop's result. -/
def refresh_and_monitor (remote : Remote) (maxTimeout : Nat)
    (env : MonitorEnv) (fuel : Nat) (store : DocumentStore) :
    RefreshMonitor × Bool × List Observation :=
  let monitor := mkMonitor store
  if (trigger_refresh remote).success then
    monitorRun maxTimeout env fuel 0 monitor
  else
    ({ monitor with error := some "Failed to trigger refresh", completed := true },
     true, [])

/-- Python truthiness of the optional error string, as tested by
`if monitor.error:` in `display_summary`. -/
def pyTruthy : Option String → Bool
  | none => false
  | some s => !(s == "")

/-- The `(successful, failed)` counters of `display_summary`
(`flowise_document_refresher.py` 432-446). -/
def display_summary_counts (monitors : List RefreshMonitor) : Nat × Nat :=
  monitors.foldl
    (fun acc m => if pyTruthy m.error then (acc.1, acc.2 + 1) else (acc.1 + 1, acc.2))
    (0, 0)

/-- The monitor carried by either outcome of a poll cycle. -/
def StepResult.monitor : StepResult → RefreshMonitor
  | .terminated m => m
  | .continued m => m

/-! ### Helper lemmas -/

lemma mem_refreshable_iff {s : String} :
    s ∈ REFRESHABLE_STATUSES ↔ s = "UPSERTED" := by
  simp [REFRESHABLE_STATUSES]

lemma mem_busy_iff {s : String} :
    s ∈ BUSY_STATUSES ↔ s = "SYNCING" ∨ s = "UPSERTING" := by
  simp [BUSY_STATUSES]

lemma mem_waiting_iff {s : String} :
    s ∈ WAITING_STATUSES ↔ s = "STALE" := by
  simp [WAITING_STATUSES]

lemma classify_refreshable_iff (s : String) :
    classify s = .Refreshable ↔ pyUpper s ∈ REFRESHABLE_STATUSES := by
  simp only [classify]
  split_ifs with h1 h2 h3 <;> simp_all

lemma classify_busy_not_refreshable {s : String} (h : classify s = .Busy) :
    pyUpper s ∉ REFRESHABLE_STATUSES := by
  intro hmem
  rw [← classify_refreshable_iff] at hmem
  rw [h] at hmem
  exact absurd hmem (by decide)

lemma classify_refreshable_mem_iff (s : String) :
    (pyUpper s ∈ REFRESHABLE_STATUSES) ↔ classify s = .Refreshable :=
  (classify_refreshable_iff s).symm

/-! ### Claim theorems -/

/-- C8: every status string classifies into exactly one bucket,
case-insensitively against the fixed sets: Refreshable iff the uppercase
is `UPSERTED`, Busy iff it is `SYNCING` or `UPSERTING`, Waiting iff it is
`STALE`, Unknown otherwise; in particular both `"upserted"` and
`"UPSERTED"` classify as Refreshable. -/
theorem classify_buckets (s : String) :
    (classify s = .Refreshable ↔ pyUpper s = "UPSERTED") ∧
    (classify s = .Busy ↔ (pyUpper s = "SYNCING" ∨ pyUpper s = "UPSERTING")) ∧
    (classify s = .Waiting ↔ pyUpper s = "STALE") ∧
    (classify s = .Unknown ↔
      ¬(pyUpper s = "UPSERTED" ∨ pyUpper s = "SYNCING" ∨
        pyUpper s = "UPSERTING" ∨ pyUpper s = "STALE")) ∧
    classify "upserted" = .Refreshable ∧ classify "UPSERTED" = .Refreshable := by
  refine ⟨?_, ?_, ?_, ?_, by decide, by decide⟩ <;>
  · by_cases e1 : pyUpper s = "UPSERTED" <;>
    by_cases e2 : pyUpper s = "SYNCING" <;>
    by_cases e3 : pyUpper s = "UPSERTING" <;>
    by_cases e4 : pyUpper s = "STALE" <;>
      simp_all [classify, REFRESHABLE_STATUSES, BUSY_STATUSES, WAITING_STATUSES]

/-- Witness for C8 at a concrete input. -/
theorem classify_buckets_witness : classify "Syncing" = .Busy :=
  (classify_buckets "Syncing").2.1.mpr (Or.inl (by decide))

/-- C9: `filter_refreshable_stores` returns exactly the sublist, in input
order, of the stores whose status classifies as Refreshable; Busy,
Waiting and Unknown stores are excluded. -/
theorem filter_refreshable_spec (stores : List DocumentStore) :
    filter_refreshable_stores stores =
      stores.filter
        (fun store => classify (store.status.getD "UNKNOWN") == StatusBucket.Refreshable) := by
  induction stores with
  | nil => rfl
  | cons store rest ih =>
    simp only [filter_refreshable_stores, List.filter_cons]
    by_cases h1 : pyUpper (store.status.getD "UNKNOWN") ∈ WAITING_STATUSES
    · rw [if_pos h1]
      have hnc : ¬ classify (store.status.getD "UNKNOWN") = .Refreshable := by
        rw [classify_refreshable_iff]
        rw [mem_waiting_iff] at h1
        rw [h1, mem_refreshable_iff]
        decide
      simp [hnc, ih]
    · rw [if_neg h1]
      by_cases h2 : pyUpper (store.status.getD "UNKNOWN") ∈ BUSY_STATUSES
      · rw [if_pos h2]
        have hnc : ¬ classify (store.status.getD "UNKNOWN") = .Refreshable := by
          rw [classify_refreshable_iff]
          rw [mem_busy_iff] at h2
          rcases h2 with h2 | h2 <;> rw [h2, mem_refreshable_iff] <;> decide
        simp [hnc, ih]
      · rw [if_neg h2]
        by_cases h3 : pyUpper (store.status.getD "UNKNOWN") ∈ REFRESHABLE_STATUSES
        · rw [if_pos h3]
          have hc : classify (store.status.getD "UNKNOWN") = .Refreshable :=
            (classify_refreshable_iff _).mpr h3
          simp [hc, ih]
        · rw [if_neg h3]
          have hnc : ¬ classify (store.status.getD "UNKNOWN") = .Refreshable := by
            rw [classify_refreshable_iff]; exact h3
          simp [hnc, ih]

/-- A fake remote that rejects the three POST variants and accepts
bodiless PUT (variant 4). -/
def remotePut4 : Remote := fun m p =>
  match m, p with
  | .PUT, none => ⟨true, 200, ""⟩
  | _, _ => ⟨false, 404, "Not Found"⟩

/-- A fake remote that rejects every variant with HTTP 404. -/
def remoteAllFail404 : Remote := fun _ _ => ⟨false, 404, "Not Found"⟩

/-- A fake remote that rejects every variant with HTTP 502. -/
def remote502 : Remote := fun _ _ => ⟨false, 502, "Bad Gateway"⟩

/-- A fake remote that rejects every variant with HTTP 500. -/
def remote500 : Remote := fun _ _ => ⟨false, 500, "Internal Server Error"⟩

/-- C3: the trigger tries the five variants in the fixed order
POST/no-body, POST/`{}`, POST/`{"items": []}`, PUT/no-body, PUT/`{}`, and
returns success at the first non-error response; when variants 1-3 fail
and variant 4 succeeds, exactly the first four variants are issued (so
variant 5 is never attempted) and the result is success. -/
theorem trigger_variant_order (remote : Remote)
    (h1 : (remote .POST none).success = false)
    (h2 : (remote .POST (some .emptyObj)).success = false)
    (h3 : (remote .POST (some .itemsEmpty)).success = false)
    (h4 : (remote .PUT none).success = true) :
    attemptsList =
      [(.POST, none), (.POST, some .emptyObj), (.POST, some .itemsEmpty),
       (.PUT, none), (.PUT, some .emptyObj)] ∧
    (trigger_refresh remote).success = true ∧
    (trigger_refresh remote).attempts_made =
      [(.POST, none), (.POST, some .emptyObj), (.POST, some .itemsEmpty),
       (.PUT, none)] := by
  refine ⟨rfl, ?_, ?_⟩ <;>
    simp [trigger_refresh, attemptsList, triggerGo, h1, h2, h3, h4]

/-- Witness for C3 at a concrete remote. -/
theorem trigger_variant_order_witness :
    (trigger_refresh remotePut4).success = true ∧
    (trigger_refresh remotePut4).attempts_made =
      [(.POST, none), (.POST, some .emptyObj), (.POST, some .itemsEmpty),
       (.PUT, none)] :=
  ⟨(trigger_variant_order remotePut4 rfl rfl rfl rfl).2.1,
   (trigger_variant_order remotePut4 rfl rfl rfl rfl).2.2⟩

/-- C4: the trigger returns failure exactly when all five variants fail;
no variant is issued twice, and on exhaustion every variant was issued
exactly once and the surfaced `last_error_status` / `last_error_message`
are those recorded from variant 5, the final attempt. -/
theorem trigger_exhaustion (remote : Remote) :
    ((trigger_refresh remote).success = false ↔
      ∀ a ∈ attemptsList, (remote a.1 a.2).success = false) ∧
    (trigger_refresh remote).attempts_made.Nodup ∧
    ((∀ a ∈ attemptsList, (remote a.1 a.2).success = false) →
      (trigger_refresh remote).attempts_made = attemptsList ∧
      (trigger_refresh remote).last_error_status =
        (remote .PUT (some .emptyObj)).status ∧
      (trigger_refresh remote).last_error_message =
        (remote .PUT (some .emptyObj)).text) := by
  cases h1 : (remote .POST none).success <;>
  cases h2 : (remote .POST (some .emptyObj)).success <;>
  cases h3 : (remote .POST (some .itemsEmpty)).success <;>
  cases h4 : (remote .PUT none).success <;>
  cases h5 : (remote .PUT (some .emptyObj)).success <;>
    simp [trigger_refresh, attemptsList, triggerGo, h1, h2, h3, h4, h5]

/-- Witness for C4 at a concrete remote failing all five variants. -/
theorem trigger_exhaustion_witness :
    (trigger_refresh remoteAllFail404).success = false ∧
    (trigger_refresh remoteAllFail404).last_error_status = 404 ∧
    (trigger_refresh remoteAllFail404).last_error_message = "Not Found" := by
  have h := trigger_exhaustion remoteAllFail404
  have hall : ∀ a ∈ attemptsList, (remoteAllFail404 a.1 a.2).success = false := by
    decide
  exact ⟨h.1.mpr hall, ((h.2.2 hall).2.1).trans rfl, ((h.2.2 hall).2.2).trans rfl⟩

/-- C5 counterexample: a remote failing all five variants with HTTP 502
— a server-error-class (5xx) status — yields no actionable hints
(`trigger_refresh` prints the hint block only when the last recorded
status is exactly 500), contradicting the claim that any 5xx status
triggers the hints. -/
theorem trigger_hint_5xx_counterexample :
    (trigger_refresh remote502).success = false ∧
    (trigger_refresh remote502).last_error_status = 502 ∧
    500 ≤ (trigger_refresh remote502).last_error_status ∧
    (trigger_refresh remote502).last_error_status < 600 ∧
    (trigger_refresh remote502).hints_emitted = false := by
  decide

/-- C5 amended: on exhaustion of all five variants the trigger surfaces
the last (variant 5) error's status code and body, and it emits the
actionable hints exactly when the last recorded status code is 500 — not
for other server-error-class statuses such as 502 or 503. -/
theorem trigger_hint_iff_500 (remote : Remote) :
    ((∀ a ∈ attemptsList, (remote a.1 a.2).success = false) →
      (trigger_refresh remote).last_error_status =
        (remote .PUT (some .emptyObj)).status ∧
      (trigger_refresh remote).last_error_message =
        (remote .PUT (some .emptyObj)).text) ∧
    ((trigger_refresh remote).hints_emitted = true ↔
      ((trigger_refresh remote).success = false ∧
       (trigger_refresh remote).last_error_status = 500)) := by
  cases h1 : (remote .POST none).success <;>
  cases h2 : (remote .POST (some .emptyObj)).success <;>
  cases h3 : (remote .POST (some .itemsEmpty)).success <;>
  cases h4 : (remote .PUT none).success <;>
  cases h5 : (remote .PUT (some .emptyObj)).success <;>
    simp [trigger_refresh, attemptsList, triggerGo, h1, h2, h3, h4, h5]

/-- Witness for the amended C5: failing all five variants with HTTP 500
does emit the hints. -/
theorem trigger_hint_iff_500_witness :
    (trigger_refresh remote500).hints_emitted = true :=
  (trigger_hint_iff_500 remote500).2.mpr ⟨by decide, by decide⟩

/-! ### Monitor step and run lemmas -/

lemma monitorStep_timeout {maxTimeout elapsed : Nat}
    (fetched : Option DocumentStore) (m : RefreshMonitor)
    (h : elapsed > maxTimeout) :
    monitorStep maxTimeout elapsed fetched m =
      (.terminated { m with
          error := some ("Timeout after " ++ format_elapsed_time elapsed)
          completed := true },
       .timedOut elapsed) := by
  unfold monitorStep
  rw [if_pos h]

lemma monitorStep_none {maxTimeout elapsed : Nat} (m : RefreshMonitor)
    (h : elapsed ≤ maxTimeout) :
    monitorStep maxTimeout elapsed none m = (.continued m, .fetchFailed) := by
  unfold monitorStep
  rw [if_neg (by omega)]

lemma monitorStep_some {maxTimeout elapsed : Nat} (d : DocumentStore)
    (m : RefreshMonitor) (h : elapsed ≤ maxTimeout) :
    monitorStep maxTimeout elapsed (some d) m = pollSuccess d m := by
  unfold monitorStep
  rw [if_neg (by omega)]

lemma pollSuccess_refreshable (d : DocumentStore) (m : RefreshMonitor)
    (h : pyUpper (d.status.getD "UNKNOWN") ∈ REFRESHABLE_STATUSES) :
    pollSuccess d m =
      (.terminated { m with
          iteration_count := m.iteration_count + 1
          status := pyUpper (d.status.getD "UNKNOWN")
          last_chunks := (d.totalChunks.getD 0 : Int)
          completed := true
          final_status := some (pyUpper (d.status.getD "UNKNOWN")) },
       .polled (m.iteration_count + 1) (pyUpper (d.status.getD "UNKNOWN"))
         (d.totalChunks.getD 0)
         (if m.iteration_count + 1 > 1 then
            (d.totalChunks.getD 0 : Int) - m.last_chunks
          else 0)) := by
  simp only [pollSuccess]
  rw [if_pos h]

lemma pollSuccess_not_refreshable (d : DocumentStore) (m : RefreshMonitor)
    (h : pyUpper (d.status.getD "UNKNOWN") ∉ REFRESHABLE_STATUSES) :
    pollSuccess d m =
      (.continued { m with
          iteration_count := m.iteration_count + 1
          status := pyUpper (d.status.getD "UNKNOWN")
          last_chunks := (d.totalChunks.getD 0 : Int) },
       .polled (m.iteration_count + 1) (pyUpper (d.status.getD "UNKNOWN"))
         (d.totalChunks.getD 0)
         (if m.iteration_count + 1 > 1 then
            (d.totalChunks.getD 0 : Int) - m.last_chunks
          else 0)) := by
  simp only [pollSuccess]
  rw [if_neg h]

/-- If every cycle in the window keeps the elapsed time within the
timeout and every successful fetch in it is non-refreshable, the loop
never exits within that window. -/
lemma monitorRun_no_exit (maxTimeout : Nat) (env : MonitorEnv) :
    ∀ fuel k m,
      (∀ j, j < fuel → (env (k + j)).1 ≤ maxTimeout ∧
        ∀ d, (env (k + j)).2 = some d →
          pyUpper (d.status.getD "UNKNOWN") ∉ REFRESHABLE_STATUSES) →
      (monitorRun maxTimeout env fuel k m).2.1 = false := by
  intro fuel
  induction fuel with
  | zero => intro k m _; rfl
  | succ n ih =>
    intro k m h
    have hk := h 0 (Nat.succ_pos n)
    rw [Nat.add_zero] at hk
    obtain ⟨hle, hsafe⟩ := hk
    unfold monitorRun
    cases hf : (env k).2 with
    | none =>
      rw [monitorStep_none m hle]
      exact ih (k + 1) m (fun j hj => by
        have := h (j + 1) (by omega)
        rwa [show k + (j + 1) = k + 1 + j by omega] at this)
    | some d =>
      rw [monitorStep_some d m hle,
        pollSuccess_not_refreshable d m (hsafe d hf)]
      exact ih (k + 1) _ (fun j hj => by
        have := h (j + 1) (by omega)
        rwa [show k + (j + 1) = k + 1 + j by omega] at this)

/-- If every cycle in the window keeps the elapsed time within the
timeout and every fetch in it fails, the loop makes no progress at all:
the monitor is returned unchanged, un-terminated, with one failed-fetch
observation per cycle. -/
lemma monitorRun_all_fetchFail (maxTimeout : Nat) (env : MonitorEnv) :
    ∀ fuel k m,
      (∀ j, j < fuel → (env (k + j)).1 ≤ maxTimeout ∧ (env (k + j)).2 = none) →
      monitorRun maxTimeout env fuel k m =
        (m, false, List.replicate fuel .fetchFailed) := by
  intro fuel
  induction fuel with
  | zero => intro k m _; rfl
  | succ n ih =>
    intro k m h
    have hk := h 0 (Nat.succ_pos n)
    rw [Nat.add_zero] at hk
    obtain ⟨hle, hnone⟩ := hk
    unfold monitorRun
    rw [hnone, monitorStep_none m hle]
    have hrest := ih (k + 1) m (fun j hj => by
      have := h (j + 1) (by omega)
      rwa [show k + (j + 1) = k + 1 + j by omega] at this)
    simp only [hrest, List.replicate_succ]

/-- An environment whose fetch always fails, with elapsed time equal to
the cycle index. -/
def envNone : MonitorEnv := fun k => (k, none)

/-- A store snapshot that always reports the busy status `SYNCING`. -/
def busyStore : DocumentStore := { status := some "SYNCING", totalChunks := some 5 }

/-- An environment that always successfully fetches `busyStore`, with
elapsed time equal to the cycle index. -/
def envBusy : MonitorEnv := fun k => (k, some busyStore)

/-- The monitor state at the start of a run, for an empty store record. -/
def startMonitor : RefreshMonitor := mkMonitor {}

/-- C1: when the elapsed time read at the top of a poll cycle strictly
exceeds the maximum refresh timeout, the cycle terminates the monitor in
the timed-out state — `completed` set, `error` recording the formatted
elapsed duration, every other field (the iteration count included)
preserved — and the outcome does not depend on any fetch result (no
further status fetch matters); and as long as the elapsed time stays
within the timeout and every successful fetch classifies as Busy, a run
of any length does not terminate. -/
theorem monitor_timeout_behavior
    (maxTimeout elapsed : Nat) (fetched : Option DocumentStore)
    (m : RefreshMonitor) (env : MonitorEnv) (n : Nat) (m0 : RefreshMonitor)
    (htime : elapsed > maxTimeout)
    (hbusy : ∀ j, j < n → (env j).1 ≤ maxTimeout ∧
      ∀ d, (env j).2 = some d → classify (d.status.getD "UNKNOWN") = .Busy) :
    monitorStep maxTimeout elapsed fetched m =
      (.terminated { m with
          error := some ("Timeout after " ++ format_elapsed_time elapsed)
          completed := true },
       .timedOut elapsed) ∧
    (∀ f1 f2 : Option DocumentStore,
      monitorStep maxTimeout elapsed f1 m = monitorStep maxTimeout elapsed f2 m) ∧
    (monitorRun maxTimeout env n 0 m0).2.1 = false := by
  refine ⟨monitorStep_timeout fetched m htime, ?_, ?_⟩
  · intro f1 f2
    rw [monitorStep_timeout f1 m htime, monitorStep_timeout f2 m htime]
  · apply monitorRun_no_exit
    intro j hj
    obtain ⟨h1, h2⟩ := hbusy j hj
    rw [Nat.zero_add]
    exact ⟨h1, fun d hd => classify_busy_not_refreshable (h2 d hd)⟩

/-- Witness for C1: with max timeout 1 and elapsed 2 the cycle times out;
with an always-Busy remote and elapsed within the timeout, two cycles do
not terminate. -/
theorem monitor_timeout_behavior_witness :
    monitorStep 1 2 none startMonitor =
      (.terminated { startMonitor with
          error := some ("Timeout after " ++ format_elapsed_time 2)
          completed := true },
       .timedOut 2) ∧
    (monitorRun 1 envBusy 2 0 startMonitor).2.1 = false := by
  have h := monitor_timeout_behavior 1 2 none startMonitor envBusy 2 startMonitor
    (by omega)
    (fun j hj => by
      refine ⟨by show j ≤ 1; omega, fun d hd => ?_⟩
      simp only [envBusy] at hd
      injection hd with hd
      rw [← hd]
      decide)
  exact ⟨h.1, h.2.2⟩

/-- C2: a poll cycle whose status fetch fails (within the timeout) leaves
the monitor completely unchanged and does not terminate; a whole window of
failed fetches within the timeout just retries, leaving the monitor
untouched and un-terminated; and the iteration count increments on a poll
cycle exactly when the cycle's fetch succeeds within the timeout. -/
theorem monitor_fetch_failure_retry
    (maxTimeout elapsed : Nat) (m : RefreshMonitor)
    (env : MonitorEnv) (n : Nat)
    (h : elapsed ≤ maxTimeout)
    (hfail : ∀ j, j < n → (env j).1 ≤ maxTimeout ∧ (env j).2 = none) :
    monitorStep maxTimeout elapsed none m = (.continued m, .fetchFailed) ∧
    monitorRun maxTimeout env n 0 m =
      (m, false, List.replicate n .fetchFailed) ∧
    (∀ (e : Nat) (f : Option DocumentStore) (m' : RefreshMonitor),
      ((monitorStep maxTimeout e f m').1.monitor).iteration_count =
        if e ≤ maxTimeout ∧ f.isSome = true then m'.iteration_count + 1
        else m'.iteration_count) := by
  refine ⟨monitorStep_none m h, ?_, ?_⟩
  · apply monitorRun_all_fetchFail
    intro j hj
    rw [Nat.zero_add]
    exact hfail j hj
  · intro e f m'
    by_cases he : e > maxTimeout
    · rw [monitorStep_timeout f m' he]
      rw [if_neg (by omega)]
      rfl
    · have hle : e ≤ maxTimeout := by omega
      cases f with
      | none =>
        rw [monitorStep_none m' hle, if_neg (by simp)]
        rfl
      | some d =>
        rw [monitorStep_some d m' hle, if_pos (by simp [hle])]
        by_cases hr : pyUpper (d.status.getD "UNKNOWN") ∈ REFRESHABLE_STATUSES
        · rw [pollSuccess_refreshable d m' hr]
          rfl
        · rw [pollSuccess_not_refreshable d m' hr]
          rfl

/-- Witness for C2 at a concrete failing-fetch environment. -/
theorem monitor_fetch_failure_retry_witness :
    monitorStep 10 3 none startMonitor = (.continued startMonitor, .fetchFailed) ∧
    monitorRun 10 envNone 3 0 startMonitor =
      (startMonitor, false, List.replicate 3 .fetchFailed) := by
  have h := monitor_fetch_failure_retry 10 3 startMonitor envNone 3
    (by omega)
    (fun j hj => ⟨by show j ≤ 10; omega, rfl⟩)
  exact ⟨h.1, h.2.1⟩

/-- A busy store snapshot reporting `c` chunks. -/
def storeChunks (c : Int) : DocumentStore :=
  { status := some "SYNCING", totalChunks := some c }

/-- Four successful busy polls reporting chunk counts 100, 140, 140, 200. -/
def envDeltas : MonitorEnv := fun k =>
  (k, (([100, 140, 140, 200] : List Int).map storeChunks).get? k)

/-- A successful poll at 100 chunks, then a failed fetch, then a
successful poll at 140 chunks. -/
def envDeltaGap : MonitorEnv := fun k =>
  (k, if k = 1 then none else some (storeChunks (if k = 0 then 100 else 140)))

/-- A monitor mid-run: one successful poll behind it, baseline 100 chunks. -/
def midMonitor : RefreshMonitor :=
  { startMonitor with iteration_count := 1, last_chunks := 100 }

/-- C6: the chunk-count delta of a successful poll is computed against
`last_chunks`, which failed fetches leave untouched (so the baseline is
the previous successful poll, never reset by an intervening failure), the
very first successful poll reports no delta (iteration 1, delta 0), and
each successful poll installs its chunk count as the new baseline; on the
poll sequence 100, 140, 140, 200 the reported deltas are 0 (first), +40,
+0, +60, and a failed fetch between polls at 100 and 140 still yields
delta +40. -/
theorem chunk_delta_baseline
    (maxTimeout e : Nat) (d : DocumentStore) (m : RefreshMonitor)
    (h : e ≤ maxTimeout) :
    ((monitorStep maxTimeout e none m).1.monitor).last_chunks = m.last_chunks ∧
    (monitorStep maxTimeout e none m).1 = .continued m ∧
    (monitorStep maxTimeout e (some d) m).2 =
      .polled (m.iteration_count + 1) (pyUpper (d.status.getD "UNKNOWN"))
        (d.totalChunks.getD 0)
        (if m.iteration_count + 1 > 1 then
           (d.totalChunks.getD 0 : Int) - m.last_chunks
         else 0) ∧
    ((monitorStep maxTimeout e (some d) m).1.monitor).last_chunks =
      (d.totalChunks.getD 0 : Int) ∧
    (monitorRun 600 envDeltas 4 0 startMonitor).2.2 =
      [.polled 1 "SYNCING" 100 0, .polled 2 "SYNCING" 140 40,
       .polled 3 "SYNCING" 140 0, .polled 4 "SYNCING" 200 60] ∧
    (monitorRun 600 envDeltaGap 3 0 startMonitor).2.2 =
      [.polled 1 "SYNCING" 100 0, .fetchFailed, .polled 2 "SYNCING" 140 40] := by
  refine ⟨?_, ?_, ?_, ?_, by decide, by decide⟩
  · rw [monitorStep_none m h]
    rfl
  · rw [monitorStep_none m h]
  · rw [monitorStep_some d m h]
    by_cases hr : pyUpper (d.status.getD "UNKNOWN") ∈ REFRESHABLE_STATUSES
    · rw [pollSuccess_refreshable d m hr]
    · rw [pollSuccess_not_refreshable d m hr]
  · rw [monitorStep_some d m h]
    by_cases hr : pyUpper (d.status.getD "UNKNOWN") ∈ REFRESHABLE_STATUSES
    · rw [pollSuccess_refreshable d m hr]
      rfl
    · rw [pollSuccess_not_refreshable d m hr]
      rfl

/-- Witness for C6: a second successful poll at 140 chunks against a
baseline of 100 reports delta +40. -/
theorem chunk_delta_baseline_witness :
    (monitorStep 600 0 (some (storeChunks 140)) midMonitor).2 =
      .polled 2 "SYNCING" 140 40 :=
  ((chunk_delta_baseline 600 0 (storeChunks 140) midMonitor (by omega)).2.2.1).trans
    (by decide)

/-- C7: `refresh_and_monitor` triggers first; if the trigger fails it
returns a failed outcome (error and completed set, iteration count 0)
without entering the polling loop (no observations); if the trigger
succeeds it returns exactly the monitor loop's result started on the
fresh monitor. -/
theorem refresh_and_monitor_sequencing
    (remote : Remote) (maxTimeout : Nat) (env : MonitorEnv) (fuel : Nat)
    (store : DocumentStore) :
    ((trigger_refresh remote).success = false →
      refresh_and_monitor remote maxTimeout env fuel store =
        ({ mkMonitor store with
            error := some "Failed to trigger refresh", completed := true },
         true, []) ∧
      (refresh_and_monitor remote maxTimeout env fuel store).1.iteration_count
        = 0) ∧
    ((trigger_refresh remote).success = true →
      refresh_and_monitor remote maxTimeout env fuel store =
        monitorRun maxTimeout env fuel 0 (mkMonitor store)) := by
  constructor
  · intro hf
    constructor
    · simp [refresh_and_monitor, hf]
    · simp [refresh_and_monitor, hf, mkMonitor]
  · intro ht
    simp [refresh_and_monitor, ht]

/-- Witness for C7: a failing trigger short-circuits without polling. -/
theorem refresh_and_monitor_sequencing_witness :
    refresh_and_monitor remote500 600 envNone 3 {} =
      ({ mkMonitor {} with
          error := some "Failed to trigger refresh", completed := true },
       true, []) :=
  ((refresh_and_monitor_sequencing remote500 600 envNone 3 {}).1 (by decide)).1

/-- The timeout error message is a non-empty string, hence truthy for
`display_summary`'s `if monitor.error:` test. -/
lemma pyTruthy_timeout_error (e : Nat) :
    pyTruthy (some ("Timeout after " ++ format_elapsed_time e)) = true := by
  simp only [pyTruthy, Bool.not_eq_true', beq_eq_false_iff_ne, ne_eq]
  intro hc
  have hlen := congrArg String.length hc
  rw [String.length_append] at hlen
  rw [show ("Timeout after " : String).length = 14 from rfl,
    show ("" : String).length = 0 from rfl] at hlen
  omega

/-- The well-formedness a loop exit guarantees: the monitor is completed,
and exactly one of `error` (a truthy, non-empty string) and
`final_status` is set. -/
def terminalInvariant (m : RefreshMonitor) : Prop :=
  m.completed = true ∧
  ((pyTruthy m.error = true ∧ m.error.isSome = true ∧ m.final_status = none) ∨
   (m.error = none ∧ m.final_status.isSome = true))

/-- If the monitor enters the loop with no error and no final status and
the loop exits within the fuel, the exit state satisfies
`terminalInvariant`. -/
lemma monitorRun_terminalInv (maxTimeout : Nat) (env : MonitorEnv) :
    ∀ fuel k m, m.error = none → m.final_status = none →
      (monitorRun maxTimeout env fuel k m).2.1 = true →
      terminalInvariant (monitorRun maxTimeout env fuel k m).1 := by
  intro fuel
  induction fuel with
  | zero =>
    intro k m _ _ hterm
    exact absurd hterm (by simp [monitorRun])
  | succ n ih =>
    intro k m herr hfin hterm
    unfold monitorRun at hterm ⊢
    by_cases htime : (env k).1 > maxTimeout
    · rw [monitorStep_timeout (env k).2 m htime]
      refine ⟨rfl, Or.inl ⟨pyTruthy_timeout_error _, rfl, hfin⟩⟩
    · have hle : (env k).1 ≤ maxTimeout := by omega
      cases hf : (env k).2 with
      | none =>
        rw [hf] at hterm
        rw [monitorStep_none m hle] at hterm ⊢
        exact ih (k + 1) m herr hfin hterm
      | some d =>
        rw [hf] at hterm
        rw [monitorStep_some d m hle] at hterm ⊢
        by_cases hr : pyUpper (d.status.getD "UNKNOWN") ∈ REFRESHABLE_STATUSES
        · rw [pollSuccess_refreshable d m hr] at hterm ⊢
          exact ⟨rfl, Or.inr ⟨herr, rfl⟩⟩
        · rw [pollSuccess_not_refreshable d m hr] at hterm ⊢
          exact ih (k + 1) _ herr hfin hterm

lemma display_summary_counts_go :
    ∀ (ms : List RefreshMonitor) (p : Nat × Nat),
      (ms.foldl
        (fun acc m =>
          if pyTruthy m.error then (acc.1, acc.2 + 1) else (acc.1 + 1, acc.2))
        p).1 +
      (ms.foldl
        (fun acc m =>
          if pyTruthy m.error then (acc.1, acc.2 + 1) else (acc.1 + 1, acc.2))
        p).2 = p.1 + p.2 + ms.length := by
  intro ms
  induction ms with
  | nil => intro p; simp
  | cons mo rest ih =>
    intro p
    simp only [List.foldl_cons, List.length_cons]
    by_cases hc : pyTruthy mo.error = true
    · rw [if_pos hc, ih]
      omega
    · rw [if_neg hc, ih]
      omega

/-- C10: every terminated `refresh_and_monitor` outcome is completed with
exactly one of `error` and `final_status` set — error set and final
status unset on trigger failure and on timeout, final status set and
error unset on completion — the error, when set, is truthy for
`display_summary`'s test, and `display_summary`'s successful/failed
counters always partition the monitor list. -/
theorem refresh_outcome_invariant
    (remote : Remote) (maxTimeout : Nat) (env : MonitorEnv) (fuel : Nat)
    (store : DocumentStore)
    (hterm : (refresh_and_monitor remote maxTimeout env fuel store).2.1 = true) :
    (refresh_and_monitor remote maxTimeout env fuel store).1.completed = true ∧
    ((pyTruthy (refresh_and_monitor remote maxTimeout env fuel store).1.error
        = true ∧
      (refresh_and_monitor remote maxTimeout env fuel store).1.error.isSome
        = true ∧
      (refresh_and_monitor remote maxTimeout env fuel store).1.final_status
        = none) ∨
     ((refresh_and_monitor remote maxTimeout env fuel store).1.error = none ∧
      (refresh_and_monitor remote maxTimeout env fuel store).1.final_status.isSome
        = true)) ∧
    (∀ ms : List RefreshMonitor,
      (display_summary_counts ms).1 + (display_summary_counts ms).2
        = ms.length) := by
  have hpart : ∀ ms : List RefreshMonitor,
      (display_summary_counts ms).1 + (display_summary_counts ms).2
        = ms.length := by
    intro ms
    have h := display_summary_counts_go ms (0, 0)
    simpa [display_summary_counts] using h
  have hinv : terminalInvariant
      (refresh_and_monitor remote maxTimeout env fuel store).1 := by
    unfold refresh_and_monitor at hterm ⊢
    by_cases ht : (trigger_refresh remote).success = true
    · rw [if_pos ht] at hterm ⊢
      exact monitorRun_terminalInv maxTimeout env fuel 0 (mkMonitor store)
        rfl rfl hterm
    · rw [if_neg ht]
      exact ⟨rfl, Or.inl ⟨rfl, rfl, rfl⟩⟩
  exact ⟨hinv.1, hinv.2, hpart⟩

/-- Witness for C10: a trigger failure yields a terminated, completed,
error-set outcome counted as failed. -/
theorem refresh_outcome_invariant_witness :
    (refresh_and_monitor remote500 600 envNone 0 {}).2.1 = true ∧
    (refresh_and_monitor remote500 600 envNone 0 {}).1.completed = true ∧
    pyTruthy (refresh_and_monitor remote500 600 envNone 0 {}).1.error = true := by
  have h := refresh_outcome_invariant remote500 600 envNone 0 {} (by decide)
  refine ⟨by decide, h.1, ?_⟩
  rcases h.2.1 with ⟨htruthy, _, _⟩ | ⟨herr, _⟩
  · exact htruthy
  · exact absurd herr (by decide)

end Flowise
